import Mathlib

/-!
Verification development for the Intelligent Customer Support Bot.

The repository consists of `backend.py` (an FAQ search engine built on a
TF-IDF vector space with unigrams and bigrams, English stop words removed and
terms occurring in more than 90% of documents pruned) and `app.py` (the reply
resolver `generate_bot_reply` together with two LLM completion backends: the
direct OpenAI client and the OpenRouter HTTP gateway with retry/backoff and a
fallback host).

Modelling conventions:
* Python strings are `String`; `str.lower` / `str.strip` are modelled over
  char lists (`lowerStr` / `stripStr`) with the ASCII whitespace set.
* Machine floats are modelled as real numbers (`ℝ`) for the similarity
  pipeline, and as exact rationals (`ℚ`) for the gateway's backoff sleeps
  (all sleep constants are exactly representable).
* JSON payloads decoded by `requests.Response.json()` are modelled by the
  dynamic value type `PyVal`; fallible Python attribute/index accesses return
  `Except PyErr`, and an uncaught Python exception is an `Except.error`.
* The network is an oracle (`GatewayEnv`): one `HttpResult` per primary
  attempt, one for the single possible fallback-host attempt, and the jitter
  drawn by `random.uniform(0, 0.1)` at each attempt.
-/

/-- FAQ record, from `backend.py` (`FAQItem` dataclass). -/
structure FAQItem where
  id : Int
  question : String
  answer : String
  category : String
deriving DecidableEq, Repr

/-- Python `str.lower` (ASCII model), as used by sklearn's preprocessor and by
`generate_bot_reply`. -/
def lowerStr (s : String) : String := String.mk (s.data.map Char.toLower)

/-- Python `str.strip` (ASCII whitespace model), as used by
`FAQSearchEngine.search` and `generate_bot_reply`. -/
def stripStr (s : String) : String :=
  String.mk (((s.data.dropWhile Char.isWhitespace).reverse.dropWhile Char.isWhitespace).reverse)

/-- A word character for the sklearn token pattern `\b\w\w+\b` (ASCII model). -/
def isWordChar (c : Char) : Bool := c.isAlphanum || c == '_'

/-- Maximal runs of word characters of a char list (the accumulator holds the
current run, reversed). -/
def wordRuns : List Char → List Char → List (List Char)
  | [], acc => if acc.isEmpty then [] else [acc.reverse]
  | c :: cs, acc =>
    if isWordChar c then wordRuns cs (c :: acc)
    else (if acc.isEmpty then [] else [acc.reverse]) ++ wordRuns cs []

/-- sklearn word tokenization: `re.findall(r"(?u)\b\w\w+\b", doc)` — the
maximal word-character runs of length at least 2. -/
def tokenize (s : String) : List String :=
  ((wordRuns s.data []).map fun r => String.mk r).filter (fun t => 2 ≤ t.length)

/-- sklearn's built-in `ENGLISH_STOP_WORDS` frozenset (the vectorizer is
constructed with `stop_words="english"`). -/
def stopWords : List String :=
  ["a", "about", "above", "across", "after", "afterwards", "again", "against",
   "all", "almost", "alone", "along", "already", "also", "although", "always",
   "am", "among", "amongst", "amoungst", "amount", "an", "and", "another",
   "any", "anyhow", "anyone", "anything", "anyway", "anywhere", "are",
   "around", "as", "at", "back", "be", "became", "because", "become",
   "becomes", "becoming", "been", "before", "beforehand", "behind", "being",
   "below", "beside", "besides", "between", "beyond", "bill", "both",
   "bottom", "but", "by", "call", "can", "cannot", "cant", "co", "con",
   "could", "couldnt", "cry", "de", "describe", "detail", "do", "done",
   "down", "due", "during", "each", "eg", "eight", "either", "eleven",
   "else", "elsewhere", "empty", "enough", "etc", "even", "ever", "every",
   "everyone", "everything", "everywhere", "except", "few", "fifteen",
   "fifty", "fill", "find", "fire", "first", "five", "for", "former",
   "formerly", "forty", "found", "four", "from", "front", "full", "further",
   "get", "give", "go", "had", "has", "hasnt", "have", "he", "hence", "her",
   "here", "hereafter", "hereby", "herein", "hereupon", "hers", "herself",
   "him", "himself", "his", "how", "however", "hundred", "i", "ie", "if",
   "in", "inc", "indeed", "interest", "into", "is", "it", "its", "itself",
   "keep", "last", "latter", "latterly", "least", "less", "ltd", "made",
   "many", "may", "me", "meanwhile", "might", "mill", "mine", "more",
   "moreover", "most", "mostly", "move", "much", "must", "my", "myself",
   "name", "namely", "neither", "never", "nevertheless", "next", "nine",
   "no", "nobody", "none", "noone", "nor", "not", "nothing", "now",
   "nowhere", "of", "off", "often", "on", "once", "one", "only", "onto",
   "or", "other", "others", "otherwise", "our", "ours", "ourselves", "out",
   "over", "own", "part", "per", "perhaps", "please", "put", "rather", "re",
   "same", "see", "seem", "seemed", "seeming", "seems", "serious", "several",
   "she", "should", "show", "side", "since", "sincere", "six", "sixty", "so",
   "some", "somehow", "someone", "something", "sometime", "sometimes",
   "somewhere", "still", "such", "system", "take", "ten", "than", "that",
   "the", "their", "them", "themselves", "then", "thence", "there",
   "thereafter", "thereby", "therefore", "therein", "thereupon", "these",
   "they", "thick", "thin", "third", "this", "those", "though", "three",
   "through", "throughout", "thru", "thus", "to", "together", "too", "top",
   "toward", "towards", "twelve", "twenty", "two", "un", "under", "until",
   "up", "upon", "us", "very", "via", "was", "we", "well", "were", "what",
   "whatever", "when", "whence", "whenever", "where", "whereafter",
   "whereas", "whereby", "wherein", "whereupon", "wherever", "whether",
   "which", "while", "whither", "who", "whoever", "whole", "whom", "whose",
   "why", "will", "with", "within", "without", "would", "yet", "you",
   "your", "yours", "yourself", "yourselves"]

/-- Stop-word removal applied to the token stream before n-gram generation. -/
def removeStop (ts : List String) : List String :=
  ts.filter (fun t => !(stopWords.contains t))

/-- All bigrams of a token list, space-joined (sklearn `_word_ngrams` for the
upper end of `ngram_range=(1, 2)`). -/
def bigrams : List String → List String
  | a :: b :: rest => (a ++ " " ++ b) :: bigrams (b :: rest)
  | _ => []

/-- The sklearn analyzer for `TfidfVectorizer(stop_words="english",
ngram_range=(1,2))`: lowercase, tokenize, drop stop words, emit unigrams and
bigrams. -/
def analyze (s : String) : List String :=
  let toks := removeStop (tokenize (lowerStr s))
  toks ++ bigrams toks

/-- Lexicographic (code-point) comparison of strings, Python's `<` on `str`,
used to model sklearn's sorted vocabulary. -/
def strLtB (a b : String) : Bool := go a.data b.data
where
  go : List Char → List Char → Bool
    | [], [] => false
    | [], _ :: _ => true
    | _ :: _, [] => false
    | c :: cs, d :: ds =>
      if c.toNat < d.toNat then true
      else if d.toNat < c.toNat then false
      else go cs ds

/-- Insertion into a sorted list of strings. -/
def insertSorted (s : String) : List String → List String
  | [] => [s]
  | t :: ts => if strLtB s t then s :: t :: ts else t :: insertSorted s ts

/-- Insertion sort by code-point order (models `sorted` over the vocabulary). -/
def sortStrings (l : List String) : List String := l.foldr insertSorted []

/-- Document frequency of a term over the analyzed documents. -/
def docFreq (docs : List (List String)) (t : String) : ℕ :=
  (docs.filter (fun d => d.contains t)).length

/-- Count vector of a term list over a fitted vocabulary (one row of the
count matrix; out-of-vocabulary terms contribute nothing). -/
def countVec (vocab : List String) (terms : List String) : List ℕ :=
  vocab.map (fun v => terms.count v)

/-- The fitted `FAQSearchEngine` state from `backend.py`: the FAQ list, the
threshold, and the vectorizer's fitted vocabulary together with the per-FAQ
question term counts (the similarity index). -/
structure Engine where
  faqs : List FAQItem
  threshold : ℝ
  vocab : List String
  docCounts : List (List ℕ)

/-- `FAQSearchEngine.__init__`: fit `TfidfVectorizer(stop_words="english",
ngram_range=(1,2), max_df=0.9)` on the FAQ questions.  A term is kept when
its document frequency is at most `0.9 * n` (`df * 10 ≤ 9 * n` exactly); if
no terms remain — including the no-terms-at-all case — sklearn raises a
`ValueError`, modelled as `none`. -/
def fitEngine (faqs : List FAQItem) (threshold : ℝ) : Option Engine :=
  let docs := faqs.map (fun f => analyze f.question)
  let n := docs.length
  let allTerms := sortStrings (docs.flatten.dedup)
  let vocab := allTerms.filter (fun t => 10 * docFreq docs t ≤ 9 * n)
  if vocab.isEmpty then none
  else some { faqs := faqs, threshold := threshold, vocab := vocab
              docCounts := docs.map (countVec vocab) }

/-- Dot product of two real vectors (truncating, like a sparse product). -/
def dotL (u v : List ℝ) : ℝ := (List.zipWith (fun a b => a * b) u v).sum

/-- Euclidean norm. -/
noncomputable def norm2 (u : List ℝ) : ℝ := Real.sqrt (dotL u u)

/-- sklearn `normalize`: rows with zero norm are left untouched (the divisor
is replaced by 1), otherwise the row is divided by its norm. -/
noncomputable def normalizeL (u : List ℝ) : List ℝ :=
  if norm2 u = 0 then u else u.map (fun x => x / norm2 u)

/-- `sklearn.metrics.pairwise.cosine_similarity` of two rows: normalize both,
then take the dot product. -/
noncomputable def cosineSim (u v : List ℝ) : ℝ :=
  dotL (normalizeL u) (normalizeL v)

/-- Number of fitted documents. -/
def nDocs (e : Engine) : ℕ := e.docCounts.length

/-- Document frequency of the `j`-th vocabulary term, read off the fitted
count matrix. -/
def dfAt (e : Engine) (j : ℕ) : ℕ :=
  (e.docCounts.filter (fun row => row.getD j 0 != 0)).length

/-- Smoothed inverse document frequency, sklearn's default
`idf = ln((1 + n) / (1 + df)) + 1`. -/
noncomputable def idf (e : Engine) (j : ℕ) : ℝ :=
  Real.log ((1 + (nDocs e : ℝ)) / (1 + (dfAt e j : ℝ))) + 1

/-- Unnormalized tf-idf row for a count vector (`tf * idf`; the l2
normalization is deferred to `cosineSim`, which normalizes anyway). -/
noncomputable def tfidfRow (e : Engine) (counts : List ℕ) : List ℝ :=
  (List.range e.vocab.length).map (fun j => ((counts.getD j 0 : ℕ) : ℝ) * idf e j)

/-- The projection of a query into the fitted vector space
(`self.vectorizer.transform([query])`). -/
noncomputable def queryVec (e : Engine) (q : String) : List ℝ :=
  tfidfRow e (countVec e.vocab (analyze q))

/-- `cosine_similarity(query_vec, self.question_vectors)[0]`: the similarity
of the query against every FAQ question vector, in catalog order. -/
noncomputable def simScores (e : Engine) (q : String) : List ℝ :=
  e.docCounts.map (fun row => cosineSim (queryVec e q) (tfidfRow e row))

/-- Tail of `np.argmax`'s linear scan: current best index `bi` with value
`bv`, next index `i`; the best is replaced only on strictly greater values,
so the first occurrence of the maximum wins. -/
def argmaxFrom {α : Type} [LinearOrder α] : List α → ℕ → ℕ → α → ℕ
  | [], _, bi, _ => bi
  | x :: xs, i, bi, bv =>
    if bv < x then argmaxFrom xs (i + 1) i x else argmaxFrom xs (i + 1) bi bv

/-- `np.argmax`: index of the first occurrence of the maximum (0 on the empty
list, which `np.argmax` rejects at runtime and which cannot arise from a
successfully fitted engine). -/
def npArgmax {α : Type} [LinearOrder α] : List α → ℕ
  | [] => 0
  | x :: xs => argmaxFrom xs 1 0 x

/-- `FAQSearchEngine.search` from `backend.py`. -/
noncomputable def search (e : Engine) (q : String) : Option FAQItem × ℝ :=
  if stripStr q = "" then (none, 0)
  else
    let sims := simScores e q
    let idx := npArgmax sims
    let best := sims.getD idx 0
    if best < e.threshold then (none, best)
    else (e.faqs[idx]?, best)

/-- A decoded JSON value as a Python object (the result of `resp.json()`).
Numbers are modelled as integers, which suffices for the payload shapes the
claims quantify over. -/
inductive PyVal where
  | none
  | bool (b : Bool)
  | int (n : Int)
  | str (s : String)
  | list (xs : List PyVal)
  | dict (kvs : List (String × PyVal))

/-- An uncaught Python exception class. -/
inductive PyErr where
  | attributeError
  | keyError
  | indexError
  | typeError
deriving DecidableEq, Repr

/-- Python truthiness of a decoded JSON value. -/
def truthy : PyVal → Bool
  | .none => false
  | .bool b => b
  | .int n => n != 0
  | .str s => s != ""
  | .list xs => !xs.isEmpty
  | .dict kvs => !kvs.isEmpty

/-- Python `v.get(k)`: only dicts have `.get`; a missing key yields `None`. -/
def pyGet (v : PyVal) (k : String) : Except PyErr PyVal :=
  match v with
  | .dict kvs => .ok ((kvs.lookup k).getD .none)
  | _ => .error .attributeError

/-- Python `v[0]` for the shapes a decoded JSON value can take: lists index
(or raise `IndexError`), strings index characters, dicts raise `KeyError`
(JSON object keys are strings, never `0`), everything else `TypeError`. -/
def pyIndex0 (v : PyVal) : Except PyErr PyVal :=
  match v with
  | .list xs => match xs with
    | [] => .error .indexError
    | x :: _ => .ok x
  | .str s => match s.data with
    | [] => .error .indexError
    | c :: _ => .ok (.str (String.mk [c]))
  | .dict _ => .error .keyError
  | _ => .error .typeError

mutual

/-- Python `repr` of a decoded JSON value (string escaping inside `repr` of a
`str` is not modelled; the payloads of interest contain no quotes). -/
def pyRepr : PyVal → String
  | .none => "None"
  | .bool true => "True"
  | .bool false => "False"
  | .int n => toString n
  | .str s => "\x27" ++ s ++ "\x27"
  | .list xs => "[" ++ pyReprSeq xs ++ "]"
  | .dict kvs => "\x7b" ++ pyReprPairs kvs ++ "\x7d"

/-- Comma-separated `repr`s of list elements. -/
def pyReprSeq : List PyVal → String
  | [] => ""
  | [x] => pyRepr x
  | x :: xs => pyRepr x ++ ", " ++ pyReprSeq xs

/-- Comma-separated `repr`s of dict items. -/
def pyReprPairs : List (String × PyVal) → String
  | [] => ""
  | [kv] => "\x27" ++ kv.1 ++ "\x27: " ++ pyRepr kv.2
  | kv :: kvs => "\x27" ++ kv.1 ++ "\x27: " ++ pyRepr kv.2 ++ ", " ++ pyReprPairs kvs

end

/-- Python `str(v)`: the string itself for a `str`, `repr` otherwise. -/
def pyStr (v : PyVal) : String :=
  match v with
  | .str s => s
  | v => pyRepr v

/-- Python `text.strip()`: only strings have `.strip`; anything else raises
`AttributeError`. -/
def pyStripVal (v : PyVal) : Except PyErr String :=
  match v with
  | .str s => .ok (stripStr s)
  | _ => .error .attributeError

/-- The 200-response text extraction of `refine_with_openrouter`:
`choices[0].message.content` or `.text` via truthiness-chained `get`s, falling
back to `str(data)`, then `.strip()`.  Dynamic-type failures (a non-string
truthy `content`, a non-dict first choice, ...) surface as `Except.error`. -/
def extractRefine (data : PyVal) : Except PyErr String :=
  match data with
  | .dict _ =>
    match pyGet data "choices" with
    | .error e => .error e
    | .ok c =>
      let choices := if truthy c then c else .list []
      if truthy choices then
        match pyIndex0 choices with
        | .error e => .error e
        | .ok c0 =>
          match pyGet c0 "message" with
          | .error e => .error e
          | .ok m =>
            let msg := if truthy m then m else .dict []
            match pyGet msg "content" with
            | .error e => .error e
            | .ok content =>
              match (if truthy content then .ok content else pyGet msg "text" :
                     Except PyErr PyVal) with
              | .error e => .error e
              | .ok text =>
                pyStripVal (if truthy text then text else .str (pyStr data))
      else
        pyStripVal (.str (pyStr data))
  | _ => pyStripVal (.str (pyStr data))

/-- The 200-response text extraction of `openrouter_fallback`.  It differs
from the refinement extraction: there is no `isinstance(data, dict)` guard
(a non-object body raises `AttributeError`), the in-choices last resort is
`str(choices[0])` rather than the whole body, and the empty-choices branch
returns `str(data)` without stripping. -/
def extractFallback (data : PyVal) : Except PyErr String :=
  match pyGet data "choices" with
  | .error e => .error e
  | .ok c =>
    let choices := if truthy c then c else .list []
    if truthy choices then
      match pyIndex0 choices with
      | .error e => .error e
      | .ok c0 =>
        match pyGet c0 "message" with
        | .error e => .error e
        | .ok m =>
          let msg := if truthy m then m else .dict []
          match pyGet msg "content" with
          | .error e => .error e
          | .ok content =>
            match (if truthy content then .ok content else pyGet msg "text" :
                   Except PyErr PyVal) with
            | .error e => .error e
            | .ok text =>
              pyStripVal (if truthy text then text else .str (pyStr c0))
    else
      .ok (pyStr data)

/-- Outcome of one `requests.post`: a response with its status and its
`json()` decoding (`Except.error ()` when the body is not JSON, which raises
a `JSONDecodeError`, a `RequestException` subclass), or a connection-level
`RequestException`. -/
inductive HttpResult where
  | resp (status : ℕ) (body : Except Unit PyVal)
  | netErr

/-- The network and randomness oracle for one gateway call: the response to
the `i`-th primary-host attempt, the response to the single possible
fallback-host attempt, the jitter `random.uniform(0, 0.1)` drawn at attempt
`i`, and whether the configured base differs from the fallback host. -/
structure GatewayEnv where
  primary : ℕ → HttpResult
  alt : HttpResult
  jitter : ℕ → ℚ
  basesDiffer : Bool

/-- Backoff before the retry that follows attempt `attempt`:
`min(backoff0 * (2 ** attempt), 8.0)` with `backoff0 = 1.0` (both gateway
loops use the same schedule). -/
def backoff (attempt : ℕ) : ℚ := min (1 * 2 ^ attempt) 8

/-- The `except Exception: pass`-wrapped fallback-host block of
`refine_with_openrouter`, applied to a decoded 200 body: it repeats the
main-loop extraction verbatim, and a swallowed exception (`none`) lets
control fall through to the backoff/retry logic. -/
def refineAltText (data : PyVal) : Option String :=
  match extractRefine data with
  | .ok t => some t
  | .error _ => Option.none

/-- The `except Exception: pass`-wrapped fallback-host block of
`openrouter_fallback`, applied to a decoded 200 body.  Unlike that
function's main loop, a falsy `choices` produces NO return (there is no
`str(data)` branch here): control falls through to the backoff/retry logic,
and every exception inside the block is swallowed. -/
def fallbackAltText (data : PyVal) : Option String :=
  match pyGet data "choices" with
  | .error _ => Option.none
  | .ok c =>
    let choices := if truthy c then c else .list []
    if truthy choices then
      match pyIndex0 choices with
      | .error _ => Option.none
      | .ok c0 =>
        match pyGet c0 "message" with
        | .error _ => Option.none
        | .ok m =>
          let msg := if truthy m then m else .dict []
          match pyGet msg "content" with
          | .error _ => Option.none
          | .ok content =>
            match (if truthy content then .ok content else pyGet msg "text" :
                   Except PyErr PyVal) with
            | .error _ => Option.none
            | .ok text =>
              match pyStripVal (if truthy text then text else .str (pyStr c0)) with
              | .ok s => some s
              | .error _ => Option.none
    else Option.none

/-- Outcome of a fallback-host attempt: a text only when the alternative
host answers 200 with a JSON body on which the loop-specific alt-block
`altText` produces a return; any other status, an undecodable body, or a
swallowed exception yields nothing. -/
def altOutcome (altText : PyVal → Option String) (env : GatewayEnv) : Option String :=
  match env.alt with
  | .netErr => Option.none
  | .resp status body =>
    if status == 200 then
      match body with
      | .ok data => altText data
      | .error _ => Option.none
    else Option.none

/-- The `except requests.RequestException` handler shared by both gateway
loops, given the continuation `recur` for the next attempt and the final
failure text `finalText`: on the first attempt with distinct hosts, one
fallback-host request is made; then either break (final attempt) or sleep
`backoff + jitter` and retry. -/
def exceptStep (altText : PyVal → Option String) (env : GatewayEnv)
    (finalText : String) (attempt calls : ℕ) (sleeps : List ℚ)
    (recur : ℕ → List ℚ → Except PyErr String × ℕ × List ℚ) :
    Except PyErr String × ℕ × List ℚ :=
  let tryAlt := attempt == 0 && env.basesDiffer
  let calls' := if tryAlt then calls + 1 else calls
  match (if tryAlt then altOutcome altText env else Option.none) with
  | some t => (.ok t, calls', sleeps)
  | Option.none =>
    if attempt == 2 then (.ok finalText, calls', sleeps)
    else recur calls' (sleeps ++ [backoff attempt + env.jitter attempt])

/-- One gateway retry loop (`for attempt in range(max_retries)` with
`max_retries = 3`), shared shape of `refine_with_openrouter` and
`openrouter_fallback`; instantiated with the respective extraction and final
failure text.  Returns the function result together with the number of
`requests.post` calls made and the list of sleeps performed. -/
def gatewayLoop (extract : PyVal → Except PyErr String)
    (altText : PyVal → Option String) (env : GatewayEnv)
    (finalText : String) : ℕ → ℕ → ℕ → List ℚ → Except PyErr String × ℕ × List ℚ
  | _, 0, calls, sleeps => (.ok finalText, calls, sleeps)
  | attempt, fuel + 1, calls, sleeps =>
    match env.primary attempt with
    | .netErr =>
      exceptStep altText env finalText attempt (calls + 1) sleeps
        (fun c s => gatewayLoop extract altText env finalText (attempt + 1) fuel c s)
    | .resp status body =>
      if status == 200 then
        match body with
        | .ok data =>
          (match extract data with
           | .ok t => (.ok t, calls + 1, sleeps)
           | .error e => (.error e, calls + 1, sleeps))
        | .error _ =>
          exceptStep altText env finalText attempt (calls + 1) sleeps
            (fun c s => gatewayLoop extract altText env finalText (attempt + 1) fuel c s)
      else if status == 429 || status == 503 then
        if attempt == 2 then (.ok finalText, calls + 1, sleeps)
        else gatewayLoop extract altText env finalText (attempt + 1) fuel (calls + 1)
          (sleeps ++ [backoff attempt + env.jitter attempt])
      else (.ok finalText, calls + 1, sleeps)

/-- The notice appended to the base answer when refinement is unavailable. -/
def refineUnavailableNotice : String := "\n\n_(AI refinement temporarily unavailable.)_"

/-- The static referral returned by `openrouter_fallback` after exhausting
its attempts. -/
def orFallbackReferral : String :=
  "I’m not able to use the AI assistant right now because of usage limits or an error.\nPlease contact our human support team at support@example.com or +91-9876543210."

/-- `refine_with_openrouter(api_key, user_query, base_answer)` against the
oracle `env` (the prompt it renders does not influence the modelled
behavior). -/
def refineWithOpenrouter (env : GatewayEnv) (baseAnswer : String) :
    Except PyErr String × ℕ × List ℚ :=
  gatewayLoop extractRefine refineAltText env (baseAnswer ++ refineUnavailableNotice) 0 3 0 []

/-- `openrouter_fallback(api_key, user_query)` against the oracle `env`. -/
def fallbackWithOpenrouter (env : GatewayEnv) :
    Except PyErr String × ℕ × List ℚ :=
  gatewayLoop extractFallback fallbackAltText env orFallbackReferral 0 3 0 []

/-- Outcome of the `try` block of a direct-API (OpenAI client) call: the
string it would return (before `.strip()`), a `RateLimitError`, or any other
exception raised inside the block (`except Exception`). -/
inductive LLMOutcome where
  | ok (text : String)
  | rateLimit
  | err

/-- Behavior oracle for a configured OpenAI client object: what each of the
two prompt templates would produce for given arguments. -/
structure LLMClient where
  refineOutcome : String → String → LLMOutcome
  fallbackOutcome : String → LLMOutcome

/-- `refine_with_llm(client, user_query, base_answer)`: total by its
`except RateLimitError` / `except Exception` handlers. -/
def refineWithLLM (c : LLMClient) (userQuery baseAnswer : String) : String :=
  match c.refineOutcome userQuery baseAnswer with
  | .ok t => stripStr t
  | .rateLimit => baseAnswer ++ "\n\n_(AI refinement temporarily unavailable: quota exceeded.)_"
  | .err => baseAnswer

/-- `llm_fallback_answer(client, user_query)`: total by its exception
handlers. -/
def llmFallbackAnswer (c : LLMClient) (userQuery : String) : String :=
  match c.fallbackOutcome userQuery with
  | .ok t => stripStr t
  | .rateLimit => "AI assistance is temporarily unavailable due to usage limits.\nPlease contact our human support team at support@example.com or +91-9876543210."
  | .err => "I ran into a technical issue.\nPlease contact our human support team at support@example.com or +91-9876543210."

/-- Python `f"{x:.2f}"` for the confidence score: the value rounded to two
decimal places (ties and negative values do not occur for cosine scores). -/
noncomputable def pyFormat2f (x : ℝ) : String :=
  let n : ℤ := round (x * 100)
  let ip := n / 100
  let fp := (n % 100).toNat
  toString ip ++ "." ++ (if fp < 10 then "0" ++ toString fp else toString fp)

/-- The formatted reply block of `generate_bot_reply`:
`**Q:** {question}\n**A:** {answer}\n\n_Match confidence: {score:.2f}_`. -/
noncomputable def fmtBlock (question answer : String) (score : ℝ) : String :=
  "**Q:** " ++ question ++ "\n**A:** " ++ answer ++
    "\n\n_Match confidence: " ++ pyFormat2f score ++ "_"

/-- The greeting test `query.lower() in ["hi", "hello", "hey"]` (applied to
the stripped query). -/
def isGreeting (s : String) : Bool :=
  lowerStr s == "hi" || lowerStr s == "hello" || lowerStr s == "hey"

/-- Reply for an empty (stripped) query. -/
def promptMsg : String := "Please type a message 🙂"

/-- The fixed greeting reply. -/
def greetMsg : String := "Hi there! 👋 How can I help you today?"

/-- The static referral returned when no FAQ matched and no LLM is used. -/
def referralMsg : String :=
  "I couldn\x27t find an exact answer.\nPlease contact our human support team at support@example.com or +91-9876543210."

/-- The collaborators and flags `generate_bot_reply` receives: the duck-typed
`faq_engine.search` method, the optional OpenAI client, the `use_llm` flag,
the provider name, the OpenRouter readiness flag, and the network oracles for
the two possible OpenRouter calls. -/
structure BotParams where
  faqSearch : String → Option FAQItem × ℝ
  client : Option LLMClient
  useLLM : Bool
  provider : String
  orReady : Bool
  refineEnv : GatewayEnv
  fallbackEnv : GatewayEnv

/-- `generate_bot_reply(query, faq_engine, client, use_llm, provider,
openrouter_ready)` from `app.py`; `Except.error` models an uncaught Python
exception escaping to the caller. -/
noncomputable def generateBotReply (P : BotParams) (query : String) : Except PyErr String :=
  let q := stripStr query
  if q = "" then .ok promptMsg
  else if isGreeting q then .ok greetMsg
  else
    match P.faqSearch q with
    | (Option.none, _score) =>
      if P.useLLM then
        match P.client with
        | some c =>
          if P.provider = "OpenAI" then .ok (llmFallbackAnswer c q)
          else if P.provider = "OpenRouter" ∧ P.orReady then
            (fallbackWithOpenrouter P.fallbackEnv).1
          else .ok referralMsg
        | Option.none =>
          if P.provider = "OpenRouter" ∧ P.orReady then
            (fallbackWithOpenrouter P.fallbackEnv).1
          else .ok referralMsg
      else .ok referralMsg
    | (some faq, score) =>
      let baseAnswer := faq.answer
      if !P.useLLM then .ok (fmtBlock faq.question baseAnswer score)
      else if P.provider = "OpenAI" then
        match P.client with
        | Option.none => .ok (fmtBlock faq.question baseAnswer score)
        | some c =>
          .ok (fmtBlock faq.question (refineWithLLM c q baseAnswer) score)
      else if P.provider = "OpenRouter" then
        if !P.orReady then .ok (fmtBlock faq.question baseAnswer score)
        else
          match (refineWithOpenrouter P.refineEnv baseAnswer).1 with
          | .ok refined => .ok (fmtBlock faq.question refined score)
          | .error e => .error e
      else .ok (fmtBlock faq.question baseAnswer score)

/-- Invariant of the linear scan behind `np.argmax`: given a view `f` of the
scanned array that agrees with the remaining list `l` from position `i` on,
with current best index `bi < i` holding value `bv`, every scanned position
bounded by `bv`, and every position before `bi` strictly below `bv`, the scan
returns the first position of the maximum of the whole array. -/
theorem argmaxFrom_go {α : Type} [LinearOrder α] (f : ℕ → α) :
    ∀ (l : List α) (i bi : ℕ) (bv : α),
      (∀ k, (hk : k < l.length) → f (i + k) = l[k]) →
      bi < i → f bi = bv →
      (∀ j, j < i → f j ≤ bv) →
      (∀ j, j < bi → f j < bv) →
      argmaxFrom l i bi bv < i + l.length ∧
      (∀ j, j < i + l.length → f j ≤ f (argmaxFrom l i bi bv)) ∧
      (∀ j, j < argmaxFrom l i bi bv → f j < f (argmaxFrom l i bi bv)) := by
  intro l
  induction l with
  | nil =>
    intro i bi bv _ hbi hfbi hub hstrict
    simp only [argmaxFrom, List.length_nil, Nat.add_zero]
    refine ⟨hbi, ?_, ?_⟩
    · intro j hj; rw [hfbi]; exact hub j hj
    · intro j hj; rw [hfbi]; exact hstrict j hj
  | cons x xs ih =>
    intro i bi bv hagree hbi hfbi hub hstrict
    have hfi : f i = x := by
      have h0 := hagree 0 (by simp)
      simpa using h0
    have hagree' : ∀ k, (hk : k < xs.length) → f (i + 1 + k) = xs[k] := by
      intro k hk
      have := hagree (k + 1) (by simpa using Nat.succ_lt_succ hk)
      simpa [Nat.add_comm, Nat.add_assoc, Nat.add_left_comm] using this
    have hlen : i + 1 + xs.length = i + (x :: xs).length := by
      simp [Nat.add_comm, Nat.add_assoc, Nat.add_left_comm]
    simp only [argmaxFrom]
    by_cases hlt : bv < x
    · rw [if_pos hlt]
      have := ih (i + 1) i x hagree' (Nat.lt_succ_self i) hfi
        (by
          intro j hj
          rcases Nat.lt_succ_iff_lt_or_eq.mp hj with h | h
          · exact le_of_lt (lt_of_le_of_lt (hub j h) hlt)
          · subst h; exact le_of_eq hfi)
        (by
          intro j hj
          exact lt_of_le_of_lt (hub j hj) hlt)
      rw [hlen] at this
      exact this
    · rw [if_neg hlt]
      have hxle : x ≤ bv := le_of_not_lt hlt
      have := ih (i + 1) bi bv hagree' (Nat.lt_succ_of_lt hbi) hfbi
        (by
          intro j hj
          rcases Nat.lt_succ_iff_lt_or_eq.mp hj with h | h
          · exact hub j h
          · subst h; rw [hfi]; exact hxle)
        hstrict
      rw [hlen] at this
      exact this

/-- `np.argmax` on a nonempty list returns an in-range index holding the
maximum value, and every earlier position holds a strictly smaller value
(first-occurrence tie-break).  Stated via `getD`, whose default is irrelevant
at in-range positions. -/
theorem npArgmax_getD {α : Type} [LinearOrder α] (d : α) (l : List α) (hne : l ≠ []) :
    npArgmax l < l.length ∧
    (∀ j, j < l.length → l.getD j d ≤ l.getD (npArgmax l) d) ∧
    (∀ j, j < npArgmax l → l.getD j d < l.getD (npArgmax l) d) := by
  match l, hne with
  | x :: xs, _ =>
    have key := argmaxFrom_go (fun j => (x :: xs).getD j d) xs 1 0 x
      (by
        intro k hk
        have h1 : k + 1 < (x :: xs).length := by simpa using Nat.succ_lt_succ hk
        simp only [Nat.add_comm 1 k]
        rw [List.getD_eq_getElem _ d h1]
        simp)
      Nat.one_pos
      (by simp)
      (by
        intro j hj
        interval_cases j
        simp)
      (by intro j hj; omega)
    simpa [npArgmax, Nat.add_comm] using key

/-- Structure of a successfully fitted engine (`fitEngine faqs thr = some e`):
the fields are exactly what `FAQSearchEngine.__init__` builds, the catalog and
vocabulary are nonempty, and the count matrix has one row per FAQ. -/
theorem fitEngine_inv {faqs : List FAQItem} {thr : ℝ} {e : Engine}
    (h : fitEngine faqs thr = some e) :
    e.faqs = faqs ∧ e.threshold = thr ∧
    e.docCounts = (faqs.map (fun f => analyze f.question)).map (countVec e.vocab) ∧
    e.docCounts.length = faqs.length ∧ e.vocab ≠ [] ∧ faqs ≠ [] := by
  simp only [fitEngine] at h
  split at h
  · exact absurd h (by simp)
  · next hvocab =>
    have he := Option.some.inj h
    subst he
    have hvocab' : ¬ (sortStrings ((faqs.map fun f => analyze f.question).flatten.dedup)).filter
        (fun t => 10 * docFreq (faqs.map fun f => analyze f.question) t ≤ 9 * (faqs.map fun f => analyze f.question).length) = [] := by
      simpa [List.isEmpty_iff] using hvocab
    refine ⟨rfl, rfl, rfl, by simp, hvocab', ?_⟩
    intro hfaqs
    subst hfaqs
    simp [sortStrings, List.dedup] at hvocab'

/-- The first FAQ of the spec's demonstration catalog. -/
def faqReturns : FAQItem :=
  ⟨1, "What is your return policy?", "30 days return.", "returns"⟩

/-- The second FAQ of the spec's demonstration catalog. -/
def faqTrack : FAQItem :=
  ⟨2, "How can I track my order?", "Use the tracking link.", "orders"⟩

/-- The spec's two-FAQ demonstration catalog. -/
def demoCatalog : List FAQItem := [faqReturns, faqTrack]

/-- The engine produced by fitting `demoCatalog` at the default threshold. -/
noncomputable def demoEngine : Engine :=
  { faqs := demoCatalog, threshold := 0.35
    vocab := ["order", "policy", "return", "return policy", "track", "track order"]
    docCounts := [[0, 1, 1, 1, 0, 0], [1, 0, 0, 0, 1, 1]] }

/-- A network oracle on which every request fails at the connection level. -/
def allNetErrEnv : GatewayEnv :=
  { primary := fun _ => .netErr, alt := .netErr, jitter := fun _ => 0
    basesDiffer := false }

/-- A minimal resolver configuration: no match ever, no client, LLM off. -/
noncomputable def trivParams : BotParams :=
  { faqSearch := fun _ => (Option.none, 0), client := Option.none
    useLLM := false, provider := "OpenAI", orReady := false
    refineEnv := allNetErrEnv, fallbackEnv := allNetErrEnv }

/-- C8: on every successfully constructed engine, an empty or whitespace-only
query makes `search` return `{item: none, score: 0.0}` along the early branch
that never projects the query into the vector space. -/
theorem search_blank_query (faqs : List FAQItem) (thr : ℝ) (e : Engine) (q : String)
    (hfit : fitEngine faqs thr = some e) (hq : stripStr q = "") :
    search e q = (Option.none, 0) := by
  simp [search, hq]

/-- Witness for C8 at the demonstration catalog and a whitespace query. -/
theorem search_blank_query_witness :
    fitEngine demoCatalog 0.35 = some demoEngine ∧ stripStr "   " = "" ∧
    search demoEngine "   " = (Option.none, 0) :=
  ⟨rfl, rfl, search_blank_query demoCatalog 0.35 demoEngine "   " rfl rfl⟩

/-- C9: `generate_bot_reply` first strips the query; an empty result returns
the literal prompt-to-type message, and a (case-insensitive) greeting returns
the fixed greeting reply for every configuration — in particular for every
`faq_engine` whatsoever, so the FAQ matcher is never consulted, even if some
FAQ question is literally "hi". -/
theorem resolver_trims_and_greets :
    (∀ (P : BotParams) (q : String), stripStr q = "" →
      generateBotReply P q = .ok promptMsg) ∧
    (∀ (P : BotParams) (q : String), isGreeting (stripStr q) = true →
      generateBotReply P q = .ok greetMsg) := by
  constructor
  · intro P q hq
    simp [generateBotReply, hq]
  · intro P q hg
    have hq : ¬ stripStr q = "" := by
      intro hq
      rw [hq] at hg
      simp [isGreeting, lowerStr] at hg
    simp [generateBotReply, hq, hg]

/-- Witness for C9: an all-whitespace query and the greeting `" HI "`, with a
catalog-free configuration (any `faqSearch` would do). -/
theorem resolver_trims_and_greets_witness :
    stripStr " " = "" ∧ generateBotReply trivParams " " = .ok promptMsg ∧
    isGreeting (stripStr " HI ") = true ∧
    generateBotReply trivParams " HI " = .ok greetMsg :=
  ⟨rfl, resolver_trims_and_greets.1 trivParams " " rfl, by decide,
   resolver_trims_and_greets.2 trivParams " HI " (by decide)⟩

/-- A resolver configuration whose matcher reports a match on `faqTrack` with
score 0.81 (the spec's Scenario 4), with LLM usage disabled. -/
noncomputable def matchParams : BotParams :=
  { faqSearch := fun _ => (some faqTrack, 0.81), client := Option.none
    useLLM := false, provider := "OpenAI", orReady := false
    refineEnv := allNetErrEnv, fallbackEnv := allNetErrEnv }

/-- C2: on a matched query (non-empty, non-greeting), the resolver returns
the formatted block of the matched question, the raw answer and the 2-decimal
confidence whenever LLM usage is off or the selected provider is unavailable
(no OpenAI client / OpenRouter not ready); with an available provider and LLM
usage on, the same block carries the refined text instead of the raw answer
and the same score.  The score 0.81 renders as "0.81". -/
theorem resolver_match_formatting (P : BotParams) (q : String) (item : FAQItem) (score : ℝ)
    (hne : ¬ stripStr q = "") (hg : isGreeting (stripStr q) = false)
    (hsearch : P.faqSearch (stripStr q) = (some item, score)) :
    (P.useLLM = false →
      generateBotReply P q = .ok (fmtBlock item.question item.answer score)) ∧
    (P.provider = "OpenAI" → P.client = Option.none →
      generateBotReply P q = .ok (fmtBlock item.question item.answer score)) ∧
    (P.provider = "OpenRouter" → P.orReady = false →
      generateBotReply P q = .ok (fmtBlock item.question item.answer score)) ∧
    (∀ c, P.useLLM = true → P.provider = "OpenAI" → P.client = some c →
      generateBotReply P q =
        .ok (fmtBlock item.question (refineWithLLM c (stripStr q) item.answer) score)) ∧
    (∀ t, P.useLLM = true → P.provider = "OpenRouter" → P.orReady = true →
      (refineWithOpenrouter P.refineEnv item.answer).1 = .ok t →
      generateBotReply P q = .ok (fmtBlock item.question t score)) ∧
    pyFormat2f 0.81 = "0.81" := by
  have hfmt : pyFormat2f 0.81 = "0.81" := by
    have hcast : ((0.81 : ℝ) * 100) = ((81 : ℤ) : ℝ) := by norm_num
    have h81 : round ((0.81 : ℝ) * 100) = 81 := by rw [hcast, round_intCast]
    simp only [pyFormat2f, h81]
    rfl
  refine ⟨?_, ?_, ?_, ?_, ?_, hfmt⟩
  · intro hu
    simp [generateBotReply, hne, hg, hsearch, hu]
  · intro hprov hc
    by_cases hu : P.useLLM
    · simp [generateBotReply, hne, hg, hsearch, hu, hprov, hc]
    · simp [generateBotReply, hne, hg, hsearch, hu]
  · intro hprov hor
    by_cases hu : P.useLLM
    · cases hc : P.client with
      | none => simp [generateBotReply, hne, hg, hsearch, hu, hprov, hor, hc]
      | some c => simp [generateBotReply, hne, hg, hsearch, hu, hprov, hor, hc]
    · simp [generateBotReply, hne, hg, hsearch, hu]
  · intro c hu hprov hc
    simp [generateBotReply, hne, hg, hsearch, hu, hprov, hc]
  · intro t hu hprov hor hrefine
    simp [generateBotReply, hne, hg, hsearch, hu, hprov, hor, hrefine]

/-- Witness for C2 at Scenario 4: LLM disabled, matcher reports `faqTrack`
with score 0.81. -/
theorem resolver_match_formatting_witness :
    (¬ stripStr "track order" = "") ∧
    isGreeting (stripStr "track order") = false ∧
    matchParams.faqSearch (stripStr "track order") = (some faqTrack, 0.81) ∧
    matchParams.useLLM = false ∧
    generateBotReply matchParams "track order" =
      .ok (fmtBlock faqTrack.question faqTrack.answer 0.81) :=
  ⟨by decide, by decide, rfl, rfl,
   (resolver_match_formatting matchParams "track order" faqTrack 0.81
      (by decide) (by decide) rfl).1 rfl⟩

/-- A resolver configuration whose matcher never matches. -/
noncomputable def noMatchParams : BotParams :=
  { faqSearch := fun _ => (Option.none, 0.1), client := Option.none
    useLLM := false, provider := "OpenAI", orReady := false
    refineEnv := allNetErrEnv, fallbackEnv := allNetErrEnv }

/-- C3: on a non-empty, non-greeting query with no FAQ match, the resolver
returns the static human-support referral when LLM usage is off or the
selected provider is unavailable; otherwise it returns the selected
provider's fallback-generation result verbatim. -/
theorem resolver_no_match (P : BotParams) (q : String) (score : ℝ)
    (hne : ¬ stripStr q = "") (hg : isGreeting (stripStr q) = false)
    (hsearch : P.faqSearch (stripStr q) = (Option.none, score)) :
    (P.useLLM = false → generateBotReply P q = .ok referralMsg) ∧
    (P.provider = "OpenAI" → P.client = Option.none →
      generateBotReply P q = .ok referralMsg) ∧
    (P.provider = "OpenRouter" → P.orReady = false →
      generateBotReply P q = .ok referralMsg) ∧
    (∀ c, P.useLLM = true → P.provider = "OpenAI" → P.client = some c →
      generateBotReply P q = .ok (llmFallbackAnswer c (stripStr q))) ∧
    (P.useLLM = true → P.provider = "OpenRouter" → P.orReady = true →
      generateBotReply P q = (fallbackWithOpenrouter P.fallbackEnv).1) := by
  refine ⟨?_, ?_, ?_, ?_, ?_⟩
  · intro hu
    simp [generateBotReply, hne, hg, hsearch, hu]
  · intro hprov hc
    by_cases hu : P.useLLM
    · simp [generateBotReply, hne, hg, hsearch, hu, hprov, hc]
    · simp [generateBotReply, hne, hg, hsearch, hu]
  · intro hprov hor
    by_cases hu : P.useLLM
    · cases hc : P.client with
      | none => simp [generateBotReply, hne, hg, hsearch, hu, hprov, hor, hc]
      | some c => simp [generateBotReply, hne, hg, hsearch, hu, hprov, hor, hc]
    · simp [generateBotReply, hne, hg, hsearch, hu]
  · intro c hu hprov hc
    simp [generateBotReply, hne, hg, hsearch, hu, hprov, hc]
  · intro hu hprov hor
    cases hc : P.client with
    | none => simp [generateBotReply, hne, hg, hsearch, hu, hprov, hor, hc]
    | some c => simp [generateBotReply, hne, hg, hsearch, hu, hprov, hor, hc]

/-- Witness for C3: LLM disabled and no match yields the static referral. -/
theorem resolver_no_match_witness :
    (¬ stripStr "where is my warehouse" = "") ∧
    isGreeting (stripStr "where is my warehouse") = false ∧
    noMatchParams.faqSearch (stripStr "where is my warehouse") = (Option.none, 0.1) ∧
    noMatchParams.useLLM = false ∧
    generateBotReply noMatchParams "where is my warehouse" = .ok referralMsg :=
  ⟨by decide, by decide, rfl, rfl,
   (resolver_no_match noMatchParams "where is my warehouse" 0.1
      (by decide) (by decide) rfl).1 rfl⟩

/-- C1: on a successfully constructed engine and a non-blank query, `search`
computes the cosine similarities of the query vector against every FAQ
question vector (`simScores`), and there is an index `i` — holding the
maximum similarity `m`, with every earlier index strictly below `m` (the
first-occurrence tie-break of `np.argmax`) — such that the result is
`(none, m)` when `m` is strictly below the threshold and `(FAQ at i, m)`
otherwise; the reported score is `m` in both cases. -/
theorem search_selects_first_max (faqs : List FAQItem) (thr : ℝ) (e : Engine) (q : String)
    (hfit : fitEngine faqs thr = some e) (hq : ¬ stripStr q = "") :
    ∃ i fi,
      i < (simScores e q).length ∧
      e.faqs[i]? = some fi ∧
      (∀ j, j < (simScores e q).length →
        (simScores e q).getD j 0 ≤ (simScores e q).getD i 0) ∧
      (∀ j, j < i → (simScores e q).getD j 0 < (simScores e q).getD i 0) ∧
      ((simScores e q).getD i 0 < e.threshold →
        search e q = (Option.none, (simScores e q).getD i 0)) ∧
      (e.threshold ≤ (simScores e q).getD i 0 →
        search e q = (some fi, (simScores e q).getD i 0)) := by
  obtain ⟨hfaqs, _hthr, hdocs, hlen, _hvocab, hfaqsne⟩ := fitEngine_inv hfit
  have hsimslen : (simScores e q).length = e.faqs.length := by
    simp [simScores, hfaqs, hlen]
  have hsimsne : simScores e q ≠ [] := by
    have : 0 < e.faqs.length := by
      rw [hfaqs]
      exact List.length_pos.mpr hfaqsne
    exact List.ne_nil_of_length_pos (hsimslen ▸ this)
  obtain ⟨hlt, hmax, hfirst⟩ := npArgmax_getD 0 (simScores e q) hsimsne
  have hif : npArgmax (simScores e q) < e.faqs.length := hsimslen ▸ hlt
  have hsome : e.faqs[npArgmax (simScores e q)]? = some (e.faqs.get ⟨npArgmax (simScores e q), hif⟩) := by
    rw [List.getElem?_eq_getElem hif]
    simp
  have hsearch : search e q =
      (if (simScores e q).getD (npArgmax (simScores e q)) 0 < e.threshold
       then (Option.none, (simScores e q).getD (npArgmax (simScores e q)) 0)
       else (e.faqs[npArgmax (simScores e q)]?,
             (simScores e q).getD (npArgmax (simScores e q)) 0)) := by
    simp [search, hq]
  refine ⟨npArgmax (simScores e q), e.faqs.get ⟨npArgmax (simScores e q), hif⟩,
    hlt, hsome, hmax, hfirst, ?_, ?_⟩
  · intro hbelow
    rw [hsearch, if_pos hbelow]
  · intro habove
    rw [hsearch, if_neg (not_lt.mpr habove), hsome]

/-- Witness for C1 at the demonstration catalog and the query
"return policy". -/
theorem search_selects_first_max_witness :
    fitEngine demoCatalog 0.35 = some demoEngine ∧
    (¬ stripStr "return policy" = "") ∧
    (∃ i fi,
      i < (simScores demoEngine "return policy").length ∧
      demoEngine.faqs[i]? = some fi ∧
      (∀ j, j < (simScores demoEngine "return policy").length →
        (simScores demoEngine "return policy").getD j 0 ≤
          (simScores demoEngine "return policy").getD i 0) ∧
      (∀ j, j < i → (simScores demoEngine "return policy").getD j 0 <
          (simScores demoEngine "return policy").getD i 0) ∧
      ((simScores demoEngine "return policy").getD i 0 < demoEngine.threshold →
        search demoEngine "return policy" =
          (Option.none, (simScores demoEngine "return policy").getD i 0)) ∧
      (demoEngine.threshold ≤ (simScores demoEngine "return policy").getD i 0 →
        search demoEngine "return policy" =
          (some fi, (simScores demoEngine "return policy").getD i 0))) :=
  ⟨rfl, by decide,
   search_selects_first_max demoCatalog 0.35 demoEngine "return policy" rfl (by decide)⟩

/-- Membership is preserved by sorted insertion. -/
theorem mem_insertSorted {t s : String} {l : List String} :
    t ∈ insertSorted s l ↔ t = s ∨ t ∈ l := by
  induction l with
  | nil => simp [insertSorted]
  | cons x xs ih =>
    by_cases h : strLtB s x
    · simp [insertSorted, h]
    · simp [insertSorted, h, ih]
      tauto

/-- Membership is preserved by the vocabulary sort. -/
theorem mem_sortStrings {t : String} {l : List String} :
    t ∈ sortStrings l ↔ t ∈ l := by
  induction l with
  | nil => simp [sortStrings]
  | cons x xs ih =>
    simp only [sortStrings, List.foldr_cons] at *
    rw [mem_insertSorted, ih, List.mem_cons]

/-- Fitting fails whenever every analyzed term is pruned by the `max_df=0.9`
cutoff (document frequency strictly above 90% of the document count). -/
theorem fitEngine_all_pruned (faqs : List FAQItem) (thr : ℝ)
    (h : ∀ t ∈ (faqs.map fun f => analyze f.question).flatten,
      9 * faqs.length < 10 * docFreq (faqs.map fun f => analyze f.question) t) :
    fitEngine faqs thr = none := by
  simp only [fitEngine]
  have hfilter : (sortStrings ((faqs.map fun f => analyze f.question).flatten.dedup)).filter
      (fun t => 10 * docFreq (faqs.map fun f => analyze f.question) t ≤
        9 * (faqs.map fun f => analyze f.question).length) = [] := by
    rw [List.filter_eq_nil_iff]
    intro t ht
    have hmem : t ∈ (faqs.map fun f => analyze f.question).flatten := by
      rw [mem_sortStrings, List.mem_dedup] at ht
      exact ht
    have := h t hmem
    simp only [List.length_map, decide_eq_true_eq]
    omega
  rw [List.length_map] at hfilter
  simp [hfilter]

/-- C10: constructing the matcher raises for every single-FAQ catalog and for
every catalog in which each analyzed term occurs in more than 90% of the
questions (in particular every catalog of identical questions): the
`max_df=0.9` cutoff prunes every term and fitting the resulting empty
vocabulary fails (modelled as `fitEngine ... = none`), so matcher properties
quantified over catalogs require the construction-succeeded precondition. -/
theorem fit_construction_failures :
    (∀ (faq : FAQItem) (thr : ℝ), fitEngine [faq] thr = none) ∧
    (∀ (faqs : List FAQItem) (thr : ℝ),
      (∀ t ∈ (faqs.map fun f => analyze f.question).flatten,
        9 * faqs.length < 10 * docFreq (faqs.map fun f => analyze f.question) t) →
      fitEngine faqs thr = none) ∧
    (∀ (faqs : List FAQItem) (thr : ℝ) (q0 : String),
      faqs ≠ [] → (∀ f ∈ faqs, f.question = q0) →
      fitEngine faqs thr = none) := by
  refine ⟨?_, fitEngine_all_pruned, ?_⟩
  · intro faq thr
    apply fitEngine_all_pruned
    intro t ht
    simp only [List.map_cons, List.map_nil, List.flatten] at ht
    have ht' : t ∈ analyze faq.question := by simpa using ht
    have : docFreq [analyze faq.question] t = 1 := by
      simp [docFreq, List.filter, ht']
    simp only [List.map_cons, List.map_nil, List.length_cons, List.length_nil, this]
    omega
  · intro faqs thr q0 hne hq0
    apply fitEngine_all_pruned
    intro t ht
    have hdocs : ∀ d ∈ faqs.map (fun f => analyze f.question), d = analyze q0 := by
      intro d hd
      obtain ⟨f, hf, rfl⟩ := List.mem_map.mp hd
      rw [hq0 f hf]
    have ht0 : t ∈ analyze q0 := by
      obtain ⟨d, hd, htd⟩ := List.mem_flatten.mp ht
      rwa [hdocs d hd] at htd
    have hdf : docFreq (faqs.map fun f => analyze f.question) t =
        (faqs.map fun f => analyze f.question).length := by
      unfold docFreq
      rw [List.filter_length_eq_length.mpr]
      intro d hd
      rw [hdocs d hd]
      simpa using ht0
    have hlen : 0 < faqs.length := List.length_pos.mpr hne
    rw [hdf, List.length_map]
    omega

/-- Witness for C10 at a two-copy catalog of the same question. -/
theorem fit_construction_failures_witness :
    ([faqTrack, faqTrack] ≠ ([] : List FAQItem)) ∧
    (∀ f ∈ [faqTrack, faqTrack], f.question = "How can I track my order?") ∧
    fitEngine [faqTrack, faqTrack] 0.35 = none :=
  ⟨by decide, by decide,
   fit_construction_failures.2.2 [faqTrack, faqTrack] 0.35 "How can I track my order?"
     (by decide) (by decide)⟩

/-- A dot product with an all-zero left factor vanishes. -/
theorem dotL_zero_left {u : List ℝ} (h : ∀ x ∈ u, x = 0) (v : List ℝ) :
    dotL u v = 0 := by
  induction u generalizing v with
  | nil => simp [dotL]
  | cons x xs ih =>
    cases v with
    | nil => simp [dotL]
    | cons y ys =>
      have hx : x = 0 := h x (by simp)
      have ih' := ih (fun z hz => h z (by simp [hz])) ys
      simp only [dotL, List.zipWith_cons_cons, List.sum_cons] at *
      rw [hx, ih']
      ring

/-- Dot squares are nonnegative. -/
theorem dotL_self_nonneg (u : List ℝ) : 0 ≤ dotL u u := by
  induction u with
  | nil => simp [dotL]
  | cons x xs ih =>
    simp only [dotL, List.zipWith_cons_cons, List.sum_cons] at *
    have := mul_self_nonneg x
    linarith

/-- A vector with a nonzero entry has positive self dot product. -/
theorem dotL_self_pos {u : List ℝ} (h : ∃ x ∈ u, x ≠ 0) : 0 < dotL u u := by
  induction u with
  | nil => simp at h
  | cons x xs ih =>
    have hstep : dotL (x :: xs) (x :: xs) = x * x + dotL xs xs := by
      simp [dotL]
    rw [hstep]
    have hxs : 0 ≤ dotL xs xs := dotL_self_nonneg xs
    rcases h with ⟨y, hy, hyne⟩
    rcases List.mem_cons.mp hy with rfl | hmem
    · have h1 : 0 < y * y := mul_self_pos.mpr hyne
      linarith
    · have h2 : 0 < dotL xs xs := ih ⟨y, hmem, hyne⟩
      have h3 : 0 ≤ x * x := mul_self_nonneg x
      linarith

/-- Dividing both factors elementwise divides the dot product by `c * c`. -/
theorem dotL_map_div (c : ℝ) (u v : List ℝ) :
    dotL (u.map (fun x => x / c)) (v.map (fun x => x / c)) = dotL u v / (c * c) := by
  induction u generalizing v with
  | nil => simp [dotL]
  | cons x xs ih =>
    cases v with
    | nil => simp [dotL]
    | cons y ys =>
      simp only [List.map_cons, dotL, List.zipWith_cons_cons, List.sum_cons] at *
      rw [ih ys]
      field_simp

/-- Cosine similarity against an all-zero vector is zero (sklearn's
`normalize` leaves zero rows untouched). -/
theorem cosineSim_zero_left {u : List ℝ} (h : ∀ x ∈ u, x = 0) (v : List ℝ) :
    cosineSim u v = 0 := by
  have hd : dotL u u = 0 := dotL_zero_left h u
  have hn : norm2 u = 0 := by simp [norm2, hd]
  have hnu : normalizeL u = u := by simp [normalizeL, hn]
  simp only [cosineSim, hnu]
  exact dotL_zero_left h (normalizeL v)

/-- Cosine similarity of a vector with positive self dot product against
itself is exactly 1. -/
theorem cosineSim_self {u : List ℝ} (h : 0 < dotL u u) : cosineSim u u = 1 := by
  have hpos : 0 < norm2 u := Real.sqrt_pos.mpr h
  have hne : ¬ norm2 u = 0 := ne_of_gt hpos
  have hnu : normalizeL u = u.map (fun x => x / norm2 u) := by
    simp [normalizeL, hne]
  simp only [cosineSim, hnu]
  rw [dotL_map_div]
  have hsq : norm2 u * norm2 u = dotL u u := Real.mul_self_sqrt (le_of_lt h)
  rw [hsq, div_self (ne_of_gt h)]

/-- A term's document frequency never exceeds the document count. -/
theorem dfAt_le_nDocs (e : Engine) (j : ℕ) : dfAt e j ≤ nDocs e :=
  List.length_filter_le _ _

/-- The smoothed idf weights are at least 1 (`ln((1+n)/(1+df)) ≥ 0` since
`df ≤ n`). -/
theorem one_le_idf (e : Engine) (j : ℕ) : 1 ≤ idf e j := by
  have hdf : (dfAt e j : ℝ) ≤ (nDocs e : ℝ) := Nat.cast_le.mpr (dfAt_le_nDocs e j)
  have h1 : (1 : ℝ) ≤ (1 + (nDocs e : ℝ)) / (1 + (dfAt e j : ℝ)) := by
    rw [one_le_div (by positivity)]
    linarith
  have h2 : 0 ≤ Real.log ((1 + (nDocs e : ℝ)) / (1 + (dfAt e j : ℝ))) :=
    Real.log_nonneg h1
  simp only [idf]
  linarith

/-- A count vector with a nonzero entry yields a tf-idf row with a nonzero
entry (idf weights being positive). -/
theorem tfidfRow_has_nonzero (e : Engine) (counts : List ℕ)
    (hlen : counts.length = e.vocab.length)
    (h : counts.any (fun c => c != 0) = true) :
    ∃ x ∈ tfidfRow e counts, x ≠ 0 := by
  rw [List.any_eq_true] at h
  obtain ⟨c, hc, hcne⟩ := h
  obtain ⟨j, hj, hcj⟩ := List.mem_iff_getElem.mp hc
  refine ⟨((counts.getD j 0 : ℕ) : ℝ) * idf e j, ?_, ?_⟩
  · simp only [tfidfRow]
    exact List.mem_map.mpr ⟨j, List.mem_range.mpr (hlen ▸ hj), rfl⟩
  · have hgd : counts.getD j 0 = c := by rw [List.getD_eq_getElem _ _ hj, hcj]
    have hidf : 0 < idf e j := lt_of_lt_of_le one_pos (one_le_idf e j)
    have hcpos : 0 < c := Nat.pos_of_ne_zero (by simpa using hcne)
    rw [hgd]
    have hmul : (0 : ℝ) < (c : ℝ) * idf e j :=
      mul_pos (by exact_mod_cast hcpos) hidf
    exact ne_of_gt hmul

/-- C5 (amended): on an engine fitted at the default threshold, for every FAQ
whose question is not whitespace-only and whose count vector over the fitted
vocabulary is nonzero, searching with the exact question text returns a match
(some FAQ — the one at the first index attaining the maximal similarity)
whose score is at least 0.9 (in the exact model, at least 1). -/
theorem search_exact_question (faqs : List FAQItem) (e : Engine) (k : ℕ) (faq : FAQItem)
    (hfit : fitEngine faqs 0.35 = some e)
    (hk : e.faqs[k]? = some faq)
    (hq : ¬ stripStr faq.question = "")
    (hcnt : (countVec e.vocab (analyze faq.question)).any (fun c => c != 0) = true) :
    (search e faq.question).1.isSome = true ∧ (0.9 : ℝ) ≤ (search e faq.question).2 := by
  obtain ⟨hfaqs, hthr, hdocs, hlen, _hvocab, _hfaqsne⟩ := fitEngine_inv hfit
  subst hfaqs
  rcases List.getElem?_eq_some_iff.mp hk with ⟨hklen, hfaqk⟩
  set q := faq.question with hqdef
  have hcl : (countVec e.vocab (analyze q)).length = e.vocab.length := by simp [countVec]
  have hwnz : ∃ x ∈ queryVec e q, x ≠ 0 := tfidfRow_has_nonzero e _ hcl hcnt
  have hwpos : 0 < dotL (queryVec e q) (queryVec e q) := dotL_self_pos hwnz
  have hsimslen : (simScores e q).length = e.docCounts.length := by simp [simScores]
  have hklen' : k < e.docCounts.length := by rw [hlen]; exact hklen
  have hksims : k < (simScores e q).length := by rw [hsimslen]; exact hklen'
  have hdockD : e.docCounts.getD k [] = countVec e.vocab (analyze q) := by
    have hkm : k < ((e.faqs.map fun f => analyze f.question).map (countVec e.vocab)).length := by
      simpa using hklen
    rw [hdocs, List.getD_eq_getElem _ _ hkm]
    simp only [List.getElem_map]
    rw [hfaqk]
  have hsimk : (simScores e q).getD k 0 = 1 := by
    rw [List.getD_eq_getElem _ _ hksims]
    simp only [simScores, List.getElem_map]
    rw [← List.getD_eq_getElem _ ([] : List ℕ) hklen', hdockD]
    exact cosineSim_self hwpos
  have hne : simScores e q ≠ [] :=
    List.ne_nil_of_length_pos (lt_of_le_of_lt (Nat.zero_le k) hksims)
  obtain ⟨hlt, hmax, _⟩ := npArgmax_getD 0 (simScores e q) hne
  have hm1 : 1 ≤ (simScores e q).getD (npArgmax (simScores e q)) 0 := by
    rw [← hsimk]
    exact hmax k hksims
  have hif : npArgmax (simScores e q) < e.faqs.length := by
    rw [← hlen, ← hsimslen]
    exact hlt
  have hsearch0 : search e q =
      (if (simScores e q).getD (npArgmax (simScores e q)) 0 < e.threshold
       then (Option.none, (simScores e q).getD (npArgmax (simScores e q)) 0)
       else (e.faqs[npArgmax (simScores e q)]?,
             (simScores e q).getD (npArgmax (simScores e q)) 0)) := by
    simp [search, hq]
  have hno : ¬ (simScores e q).getD (npArgmax (simScores e q)) 0 < e.threshold := by
    rw [hthr]
    have h35 : (0.35 : ℝ) ≤ 1 := by norm_num
    intro hcon
    linarith
  rw [hsearch0, if_neg hno]
  constructor
  · simp [List.getElem?_eq_getElem hif]
  · have h09 : (0.9 : ℝ) ≤ 1 := by norm_num
    show (0.9 : ℝ) ≤ (simScores e q).getD (npArgmax (simScores e q)) 0
    linarith

/-- Witness for the amended C5 at the demonstration catalog, FAQ index 0. -/
theorem search_exact_question_witness :
    fitEngine demoCatalog 0.35 = some demoEngine ∧
    demoEngine.faqs[0]? = some faqReturns ∧
    (¬ stripStr faqReturns.question = "") ∧
    (countVec demoEngine.vocab (analyze faqReturns.question)).any (fun c => c != 0) = true ∧
    (search demoEngine faqReturns.question).1.isSome = true ∧
    (0.9 : ℝ) ≤ (search demoEngine faqReturns.question).2 := by
  refine ⟨rfl, rfl, by decide, by decide, ?_, ?_⟩
  · exact (search_exact_question demoCatalog demoEngine 0 faqReturns rfl rfl
      (by decide) (by decide)).1
  · exact (search_exact_question demoCatalog demoEngine 0 faqReturns rfl rfl
      (by decide) (by decide)).2

/-- An FAQ whose question consists solely of English stop words. -/
def faqStop : FAQItem := ⟨2, "and the", "Stop words only.", "misc"⟩

/-- A catalog on which construction succeeds although one question
contributes no vocabulary terms. -/
def stopCatalog : List FAQItem := [faqReturns, faqStop]

/-- The engine obtained by fitting `stopCatalog` at the default threshold:
the second question's row is all zeros. -/
noncomputable def stopEngine : Engine :=
  { faqs := stopCatalog, threshold := 0.35
    vocab := ["policy", "return", "return policy"]
    docCounts := [[1, 1, 1], [0, 0, 0]] }

/-- Every entry of the tf-idf row of an all-zero count vector is zero. -/
theorem tfidfRow_all_zero (e : Engine) (counts : List ℕ)
    (h : ∀ c ∈ counts, c = 0) : ∀ x ∈ tfidfRow e counts, x = 0 := by
  intro x hx
  simp only [tfidfRow, List.mem_map, List.mem_range] at hx
  obtain ⟨j, _, rfl⟩ := hx
  have hc : counts.getD j 0 = 0 := by
    by_cases hj : j < counts.length
    · rw [List.getD_eq_getElem _ _ hj]
      exact h _ (List.getElem_mem hj)
    · exact List.getD_eq_default _ _ (Nat.le_of_not_lt hj)
  rw [hc]
  simp

/-- Counterexample to C5 as stated: on `stopCatalog` (construction succeeds)
the exact text of FAQ index 1's question "and the" analyzes to no terms, its
query vector is zero, every cosine similarity is 0, and `search` returns
`{item: none, score: 0}` — not a match on FAQ 1 with score at least 0.9. -/
theorem search_exact_question_counterexample :
    fitEngine stopCatalog 0.35 = some stopEngine ∧
    stopEngine.faqs[1]? = some faqStop ∧
    (search stopEngine faqStop.question).1 = Option.none ∧
    (search stopEngine faqStop.question).2 < 0.9 := by
  have hqv : ∀ x ∈ queryVec stopEngine faqStop.question, x = 0 := by
    apply tfidfRow_all_zero
    intro c hc
    have hcv : countVec stopEngine.vocab (analyze faqStop.question) = [0, 0, 0] := by decide
    rw [hcv] at hc
    simpa using hc
  have hsims : simScores stopEngine faqStop.question = [0, 0] := by
    show (stopEngine.docCounts.map fun row =>
      cosineSim (queryVec stopEngine faqStop.question) (tfidfRow stopEngine row)) = [0, 0]
    rw [show stopEngine.docCounts = [[1, 1, 1], [0, 0, 0]] from rfl]
    simp only [List.map_cons, List.map_nil]
    rw [cosineSim_zero_left hqv, cosineSim_zero_left hqv]
  have hstrip : ¬ stripStr faqStop.question = "" := by decide
  have hargmax : npArgmax ([0, 0] : List ℝ) = 0 := by
    simp [npArgmax, argmaxFrom]
  have hsearch : search stopEngine faqStop.question = (Option.none, 0) := by
    have h0 : search stopEngine faqStop.question =
        (if (simScores stopEngine faqStop.question).getD
              (npArgmax (simScores stopEngine faqStop.question)) 0 < stopEngine.threshold
         then (Option.none, (simScores stopEngine faqStop.question).getD
              (npArgmax (simScores stopEngine faqStop.question)) 0)
         else (stopEngine.faqs[npArgmax (simScores stopEngine faqStop.question)]?,
              (simScores stopEngine faqStop.question).getD
              (npArgmax (simScores stopEngine faqStop.question)) 0)) := by
      simp [search, hstrip]
    rw [h0, hsims, hargmax]
    have hthr : stopEngine.threshold = 0.35 := rfl
    rw [hthr]
    norm_num
  exact ⟨rfl, rfl, by rw [hsearch], by rw [hsearch]; norm_num⟩

/-- HTTP status of a transport outcome, if a response arrived. -/
def statusOf : HttpResult → Option ℕ
  | .resp s _ => some s
  | .netErr => Option.none

/-- Did the outcome carry HTTP status 200? -/
def is200 (h : HttpResult) : Bool := statusOf h == some 200

/-- Is the outcome one of the retryable statuses 429 / 503? -/
def isRetryable (h : HttpResult) : Bool :=
  match statusOf h with
  | some s => s == 429 || s == 503
  | Option.none => false

/-- Does the attempt take the `except requests.RequestException` path (a
connection error, or a 200 whose body fails to decode as JSON)? -/
def isConnFailure : HttpResult → Bool
  | .netErr => true
  | .resp s (.error _) => s == 200
  | .resp _ (.ok _) => false

/-- Canonical form of the exception handler used in the loop proofs. -/
theorem exceptStep_cases (altText : PyVal → Option String) (env : GatewayEnv)
    (finalText : String) (attempt calls : ℕ) (sleeps : List ℚ)
    (recur : ℕ → List ℚ → Except PyErr String × ℕ × List ℚ) :
    exceptStep altText env finalText attempt calls sleeps recur =
      (match (if attempt == 0 && env.basesDiffer then altOutcome altText env
              else Option.none) with
       | some t =>
         (.ok t, calls + (if attempt == 0 && env.basesDiffer then 1 else 0), sleeps)
       | Option.none =>
         if attempt == 2 then
           (.ok finalText, calls + (if attempt == 0 && env.basesDiffer then 1 else 0), sleeps)
         else recur (calls + (if attempt == 0 && env.basesDiffer then 1 else 0))
           (sleeps ++ [backoff attempt + env.jitter attempt])) := by
  by_cases h : (attempt == 0 && env.basesDiffer) = true <;> simp [exceptStep, h]

/-- The fallback-host block yields nothing when the fallback host does not
answer 200. -/
theorem altOutcome_of_not200 (altText : PyVal → Option String) (env : GatewayEnv)
    (h : is200 env.alt = false) : altOutcome altText env = Option.none := by
  cases halt : env.alt with
  | netErr => simp [altOutcome, halt]
  | resp s b =>
    have hs : (s == 200) = false := by
      rw [halt] at h
      simpa [is200, statusOf] using h
    simp [altOutcome, halt, hs]

/-- First projection of the call-count component of a loop result literal. -/
theorem gwCalls_mk (r : Except PyErr String) (c : ℕ) (s : List ℚ) : (r, c, s).2.1 = c := rfl

/-- Call-count bound for the exception handler, generic in the bound. -/
theorem exceptStep_calls_le (altText : PyVal → Option String) (env : GatewayEnv)
    (finalText : String) (attempt calls : ℕ) (sleeps : List ℚ)
    (recur : ℕ → List ℚ → Except PyErr String × ℕ × List ℚ) (B : ℕ)
    (hlit : calls + (if attempt == 0 && env.basesDiffer then 1 else 0) ≤ B)
    (hrec : ∀ s, (recur (calls + (if attempt == 0 && env.basesDiffer then 1 else 0)) s).2.1 ≤ B) :
    (exceptStep altText env finalText attempt calls sleeps recur).2.1 ≤ B := by
  rw [exceptStep_cases]
  split
  · rw [gwCalls_mk]
    exact hlit
  · by_cases ha2 : (attempt == 2) = true
    · simp only [ha2, if_true, gwCalls_mk]
      exact hlit
    · simp only [Bool.not_eq_true] at ha2
      simp only [ha2, Bool.false_eq_true, if_false]
      exact hrec _

/-- Call-count bound for the gateway loop: at most one `requests.post` per
remaining loop iteration, plus one fallback-host post available only while
processing attempt 0 with distinct hosts. -/
theorem gatewayLoop_calls_le (extract : PyVal → Except PyErr String)
    (altText : PyVal → Option String) (env : GatewayEnv)
    (finalText : String) :
    ∀ fuel attempt calls sleeps,
      (gatewayLoop extract altText env finalText attempt fuel calls sleeps).2.1 ≤
        calls + fuel + (if attempt == 0 && env.basesDiffer then 1 else 0) := by
  intro fuel
  induction fuel with
  | zero =>
    intro attempt calls sleeps
    simp [gatewayLoop]
  | succ fuel ih =>
    intro attempt calls sleeps
    simp only [gatewayLoop]
    have hnext : ∀ calls' sleeps',
        (gatewayLoop extract altText env finalText (attempt + 1) fuel calls' sleeps').2.1 ≤
          calls' + fuel := by
      intro calls' sleeps'
      refine le_trans (ih (attempt + 1) calls' sleeps') ?_
      have h0 : (((attempt + 1 : ℕ) == 0) && env.basesDiffer) = false := by simp
      rw [h0]
      simp
    cases hp : env.primary attempt with
    | netErr =>
      apply exceptStep_calls_le
      · split <;> omega
      · intro s
        refine le_trans (hnext _ s) ?_
        split <;> omega
    | resp status body =>
      by_cases h200 : (status == 200) = true
      · simp only [h200, if_true]
        cases body with
        | ok data =>
          cases hex : extract data <;> simp only [hex, gwCalls_mk] <;>
            split <;> omega
        | error u =>
          apply exceptStep_calls_le
          · split <;> omega
          · intro s
            refine le_trans (hnext _ s) ?_
            split <;> omega
      · simp only [Bool.not_eq_true] at h200
        simp only [h200, Bool.false_eq_true, if_false]
        by_cases hr : (status == 429 || status == 503) = true
        · simp only [hr, if_true]
          by_cases ha2 : (attempt == 2) = true
          · simp only [ha2, if_true, gwCalls_mk]
            split <;> omega
          · simp only [Bool.not_eq_true] at ha2
            simp only [ha2, Bool.false_eq_true, if_false]
            refine le_trans (hnext _ _) ?_
            split <;> omega
        · simp only [Bool.not_eq_true] at hr
          simp only [hr, Bool.false_eq_true, if_false, gwCalls_mk]
          split <;> omega

/-- When no primary attempt in the remaining window and no fallback-host
attempt carries status 200, the loop ends in the final failure text. -/
theorem gatewayLoop_no200 (extract : PyVal → Except PyErr String)
    (altText : PyVal → Option String) (env : GatewayEnv)
    (finalText : String) :
    ∀ fuel attempt calls sleeps,
      (∀ i, attempt ≤ i → i < attempt + fuel → is200 (env.primary i) = false) →
      is200 env.alt = false →
      (gatewayLoop extract altText env finalText attempt fuel calls sleeps).1 = .ok finalText := by
  intro fuel
  induction fuel with
  | zero =>
    intro attempt calls sleeps _ _
    simp [gatewayLoop]
  | succ fuel ih =>
    intro attempt calls sleeps hpri halt
    simp only [gatewayLoop]
    cases hp : env.primary attempt with
    | netErr =>
      rw [exceptStep_cases, altOutcome_of_not200 altText env halt]
      simp only [ite_self]
      by_cases ha2 : (attempt == 2) = true
      · simp [ha2]
      · simp only [Bool.not_eq_true] at ha2
        simp only [ha2, Bool.false_eq_true, if_false]
        exact ih (attempt + 1) _ _
          (fun i h1 h2 => hpri i (by omega) (by omega)) halt
    | resp status body =>
      have hs : (status == 200) = false := by
        have h0 := hpri attempt (le_refl _) (by omega)
        rw [hp] at h0
        simpa [is200, statusOf] using h0
      simp only [hs, Bool.false_eq_true, if_false]
      by_cases hr : (status == 429 || status == 503) = true
      · simp only [hr, if_true]
        by_cases ha2 : (attempt == 2) = true
        · simp [ha2]
        · simp only [Bool.not_eq_true] at ha2
          simp only [ha2, Bool.false_eq_true, if_false]
          exact ih (attempt + 1) _ _
            (fun i h1 h2 => hpri i (by omega) (by omega)) halt
      · simp only [Bool.not_eq_true] at hr
        simp [hr]

/-- When the first processed attempt does not take the exception path, no
fallback-host request happens and the loop makes at most one post per
iteration. -/
theorem gatewayLoop_first_not_connFailure (extract : PyVal → Except PyErr String)
    (altText : PyVal → Option String)
    (env : GatewayEnv) (finalText : String) (fuel attempt calls : ℕ) (sleeps : List ℚ)
    (h : isConnFailure (env.primary attempt) = false) :
    (gatewayLoop extract altText env finalText attempt (fuel + 1) calls sleeps).2.1 ≤
      calls + (fuel + 1) := by
  have hnext : ∀ calls' sleeps',
      (gatewayLoop extract altText env finalText (attempt + 1) fuel calls' sleeps').2.1 ≤
        calls' + fuel := by
    intro calls' sleeps'
    refine le_trans (gatewayLoop_calls_le extract altText env finalText fuel (attempt + 1)
      calls' sleeps') ?_
    have h0 : (((attempt + 1 : ℕ) == 0) && env.basesDiffer) = false := by simp
    rw [h0]
    simp
  simp only [gatewayLoop]
  cases hp : env.primary attempt with
  | netErr =>
    rw [hp] at h
    simp [isConnFailure] at h
  | resp status body =>
    cases body with
    | ok data =>
      by_cases h200 : (status == 200) = true
      · simp only [h200, if_true]
        cases hex : extract data <;> simp only [hex, gwCalls_mk] <;> omega
      · simp only [Bool.not_eq_true] at h200
        simp only [h200, Bool.false_eq_true, if_false]
        by_cases hr : (status == 429 || status == 503) = true
        · simp only [hr, if_true]
          by_cases ha2 : (attempt == 2) = true
          · simp only [ha2, if_true, gwCalls_mk]
            omega
          · simp only [Bool.not_eq_true] at ha2
            simp only [ha2, Bool.false_eq_true, if_false]
            refine le_trans (hnext _ _) ?_
            omega
        · simp only [Bool.not_eq_true] at hr
          simp only [hr, Bool.false_eq_true, if_false, gwCalls_mk]
          omega
    | error u =>
      have h200 : (status == 200) = false := by
        rw [hp] at h
        simpa [isConnFailure] using h
      simp only [h200, Bool.false_eq_true, if_false]
      by_cases hr : (status == 429 || status == 503) = true
      · simp only [hr, if_true]
        by_cases ha2 : (attempt == 2) = true
        · simp only [ha2, if_true, gwCalls_mk]
          omega
        · simp only [Bool.not_eq_true] at ha2
          simp only [ha2, Bool.false_eq_true, if_false]
          refine le_trans (hnext _ _) ?_
          omega
      · simp only [Bool.not_eq_true] at hr
        simp only [hr, Bool.false_eq_true, if_false, gwCalls_mk]
        omega

/-- C4 (amended): the refinement gateway makes at most 3 primary-host HTTP
attempts, plus at most one fallback-host request (only after a first-attempt
connection-level failure with distinct hosts), hence at most 4 HTTP requests
in total and at most 3 when no such first-attempt failure occurs; an attempt
answered 429 or 503 is retried after sleeping `min(1.0 * 2^attempt, 8.0)`
seconds plus the drawn jitter (which `random.uniform(0, 0.1)` keeps within
0.1), unless it was the final attempt; any other non-200 status stops
immediately with the base answer plus the unavailable notice; and whenever no
request is answered 200 the function returns the base answer with the notice
appended. -/
theorem gateway_retry_policy (env : GatewayEnv) (base : String) :
    (refineWithOpenrouter env base).2.1 ≤ 4 ∧
    (isConnFailure (env.primary 0) = false ∨ env.basesDiffer = false →
      (refineWithOpenrouter env base).2.1 ≤ 3) ∧
    (∀ s b, env.primary 0 = .resp s b → s ≠ 200 → s ≠ 429 → s ≠ 503 →
      refineWithOpenrouter env base = (.ok (base ++ refineUnavailableNotice), 1, [])) ∧
    ((∀ i, i < 3 → isRetryable (env.primary i) = true) →
      refineWithOpenrouter env base =
        (.ok (base ++ refineUnavailableNotice), 3,
         [backoff 0 + env.jitter 0, backoff 1 + env.jitter 1])) ∧
    ((∀ i, i < 3 → is200 (env.primary i) = false) → is200 env.alt = false →
      (refineWithOpenrouter env base).1 = .ok (base ++ refineUnavailableNotice)) ∧
    ((∀ i, 0 ≤ env.jitter i ∧ env.jitter i ≤ 1 / 10) → ∀ i,
      backoff i ≤ backoff i + env.jitter i ∧
      backoff i + env.jitter i ≤ backoff i + 1 / 10) := by
  refine ⟨?_, ?_, ?_, ?_, ?_, ?_⟩
  · have h := gatewayLoop_calls_le extractRefine refineAltText env (base ++ refineUnavailableNotice) 3 0 0 []
    show (gatewayLoop extractRefine refineAltText env (base ++ refineUnavailableNotice) 0 3 0 []).2.1 ≤ 4
    split at h <;> omega
  · intro hcase
    show (gatewayLoop extractRefine refineAltText env (base ++ refineUnavailableNotice) 0 3 0 []).2.1 ≤ 3
    rcases hcase with hcf | hbd
    · exact gatewayLoop_first_not_connFailure extractRefine refineAltText env
        (base ++ refineUnavailableNotice) 2 0 0 [] hcf
    · have h := gatewayLoop_calls_le extractRefine refineAltText env (base ++ refineUnavailableNotice) 3 0 0 []
      rw [hbd] at h
      simp at h
      exact h
  · intro s b hp h1 h2 h3
    have hs200 : (s == 200) = false := by
      rw [beq_eq_false_iff_ne]
      exact h1
    have hsr : (s == 429 || s == 503) = false := by
      simp [beq_eq_false_iff_ne, h2, h3]
    show gatewayLoop extractRefine refineAltText env (base ++ refineUnavailableNotice) 0 3 0 [] = _
    simp [gatewayLoop, hp, hs200, hsr]
  · intro hr
    have hshape : ∀ i, i < 3 → ∃ s b, env.primary i = .resp s b ∧
        (s == 200) = false ∧ (s == 429 || s == 503) = true := by
      intro i hi
      have hri := hr i hi
      cases hp : env.primary i with
      | netErr =>
        rw [hp] at hri
        simp [isRetryable, statusOf] at hri
      | resp s b =>
        rw [hp] at hri
        have hsv : s = 429 ∨ s = 503 := by
          simpa [isRetryable, statusOf] using hri
        refine ⟨s, b, rfl, ?_, ?_⟩
        · rcases hsv with rfl | rfl <;> decide
        · rcases hsv with rfl | rfl <;> decide
    obtain ⟨s0, b0, hp0, h0a, h0b⟩ := hshape 0 (by omega)
    obtain ⟨s1, b1, hp1, h1a, h1b⟩ := hshape 1 (by omega)
    obtain ⟨s2, b2, hp2, h2a, h2b⟩ := hshape 2 (by omega)
    show gatewayLoop extractRefine refineAltText env (base ++ refineUnavailableNotice) 0 3 0 [] = _
    simp [gatewayLoop, hp0, hp1, hp2, h0a, h0b, h1a, h1b, h2a, h2b]
  · intro h200s halt
    exact gatewayLoop_no200 extractRefine refineAltText env (base ++ refineUnavailableNotice) 3 0 0 []
      (fun i _ h2 => h200s i (by omega)) halt
  · intro hj i
    have := hj i
    constructor <;> linarith [this.1, this.2]

/-- A transport on which every primary attempt is answered 429. -/
def all429Env : GatewayEnv :=
  { primary := fun _ => .resp 429 (.error ()), alt := .netErr
    jitter := fun _ => 0, basesDiffer := false }

/-- Witness for C4: three 429 answers produce exactly 3 requests, two backoff
sleeps, and the base answer with the unavailable notice. -/
theorem gateway_retry_policy_witness :
    (∀ i, i < 3 → isRetryable (all429Env.primary i) = true) ∧
    refineWithOpenrouter all429Env "Base." =
      (.ok ("Base." ++ refineUnavailableNotice), 3,
       [backoff 0 + all429Env.jitter 0, backoff 1 + all429Env.jitter 1]) :=
  ⟨fun _ _ => rfl,
   (gateway_retry_policy all429Env "Base.").2.2.2.1 (fun _ _ => rfl)⟩

/-- A transport with distinct hosts on which every request fails at the
connection level. -/
def fourCallEnv : GatewayEnv :=
  { primary := fun _ => .netErr, alt := .netErr
    jitter := fun _ => 0, basesDiffer := true }

/-- Counterexample to C4 as stated: a connection failure on the first attempt
with distinct hosts triggers the fallback-host request on top of the 3
primary attempts, so 4 HTTP requests are made in total, not at most 3. -/
theorem gateway_retry_policy_counterexample :
    fourCallEnv.primary 0 = .netErr ∧ fourCallEnv.basesDiffer = true ∧
    (refineWithOpenrouter fourCallEnv "Base.").2.1 = 4 :=
  ⟨rfl, rfl, rfl⟩

/-- The standard OpenAI-style payload shape: one choice whose `message`
object has the given fields. -/
def mkPayload (msg : List (String × PyVal)) : PyVal :=
  .dict [("choices", .list [.dict [("message", .dict msg)]])]

/-- C7 (amended): when an HTTP attempt is answered 200, both gateway loops
return exactly their payload extraction; the refinement extraction takes the
first choice's truthy message content, else its truthy `text` field, else the
stringified whole body, and strips the result — while the fallback-generation
extraction, inside a nonempty `choices`, falls back to the stringified FIRST
CHOICE (not the whole body) before stripping, and on an empty or falsy
`choices` returns the stringified whole body WITHOUT stripping. -/
theorem gateway_extraction (env : GatewayEnv) (base : String) (data : PyVal) :
    (env.primary 0 = .resp 200 (.ok data) →
      (refineWithOpenrouter env base).1 = extractRefine data ∧
      (fallbackWithOpenrouter env).1 = extractFallback data) ∧
    (∀ s, ¬ s = "" →
      extractRefine (mkPayload [("content", .str s)]) = .ok (stripStr s) ∧
      extractRefine (mkPayload [("text", .str s)]) = .ok (stripStr s) ∧
      extractFallback (mkPayload [("content", .str s)]) = .ok (stripStr s)) ∧
    extractRefine (mkPayload []) = .ok (stripStr (pyStr (mkPayload []))) ∧
    extractFallback (mkPayload []) =
      .ok (stripStr (pyStr (PyVal.dict [("message", PyVal.dict [])]))) ∧
    extractFallback (PyVal.dict [("choices", PyVal.list [])]) =
      .ok (pyStr (PyVal.dict [("choices", PyVal.list [])])) := by
  refine ⟨?_, ?_, rfl, rfl, rfl⟩
  · intro hp
    constructor
    · show (gatewayLoop extractRefine refineAltText env (base ++ refineUnavailableNotice) 0 3 0 []).1 =
        extractRefine data
      simp only [gatewayLoop, hp]
      cases hex : extractRefine data <;> simp [hex]
    · show (gatewayLoop extractFallback fallbackAltText env orFallbackReferral 0 3 0 []).1 =
        extractFallback data
      simp only [gatewayLoop, hp]
      cases hex : extractFallback data <;> simp [hex]
  · intro s hs
    have ht : truthy (PyVal.str s) = true := by simpa [truthy] using hs
    have ec1 : pyGet (PyVal.dict
        [("choices", PyVal.list [PyVal.dict [("message", PyVal.dict [("content", PyVal.str s)])]])])
        "choices" =
        .ok (PyVal.list [PyVal.dict [("message", PyVal.dict [("content", PyVal.str s)])]]) := rfl
    have ec2 : pyIndex0 (PyVal.list [PyVal.dict [("message", PyVal.dict [("content", PyVal.str s)])]]) =
        .ok (PyVal.dict [("message", PyVal.dict [("content", PyVal.str s)])]) := rfl
    have ec3 : pyGet (PyVal.dict [("message", PyVal.dict [("content", PyVal.str s)])]) "message" =
        .ok (PyVal.dict [("content", PyVal.str s)]) := rfl
    have ec4 : pyGet (PyVal.dict [("content", PyVal.str s)]) "content" =
        .ok (PyVal.str s) := rfl
    have et1 : pyGet (PyVal.dict
        [("choices", PyVal.list [PyVal.dict [("message", PyVal.dict [("text", PyVal.str s)])]])])
        "choices" =
        .ok (PyVal.list [PyVal.dict [("message", PyVal.dict [("text", PyVal.str s)])]]) := rfl
    have et2 : pyIndex0 (PyVal.list [PyVal.dict [("message", PyVal.dict [("text", PyVal.str s)])]]) =
        .ok (PyVal.dict [("message", PyVal.dict [("text", PyVal.str s)])]) := rfl
    have et3 : pyGet (PyVal.dict [("message", PyVal.dict [("text", PyVal.str s)])]) "message" =
        .ok (PyVal.dict [("text", PyVal.str s)]) := rfl
    have et4 : pyGet (PyVal.dict [("text", PyVal.str s)]) "content" = .ok PyVal.none := rfl
    have et5 : pyGet (PyVal.dict [("text", PyVal.str s)]) "text" = .ok (PyVal.str s) := rfl
    refine ⟨?_, ?_, ?_⟩
    · simp [extractRefine, mkPayload, ec1, ec2, ec3, ec4, truthy, pyStripVal, ht, hs]
    · simp [extractRefine, mkPayload, et1, et2, et3, et4, et5, truthy, pyStripVal, ht, hs]
    · simp [extractFallback, mkPayload, ec1, ec2, ec3, ec4, truthy, pyStripVal, ht, hs]

/-- Witness for C7: a content payload and a content-free payload, with
non-blank text. -/
theorem gateway_extraction_witness :
    (¬ "  polished  " = "") ∧
    extractRefine (mkPayload [("content", .str "  polished  ")]) =
      .ok (stripStr "  polished  ") ∧
    extractFallback (mkPayload []) =
      .ok (stripStr (pyStr (PyVal.dict [("message", PyVal.dict [])]))) :=
  ⟨by decide,
   ((gateway_extraction allNetErrEnv "B" (mkPayload [])).2.1 "  polished  " (by decide)).1,
   (gateway_extraction allNetErrEnv "B" (mkPayload [])).2.2.2.1⟩

/-- Counterexample to C7 as stated: on the payload
`{"choices": [{"message": {}}]}` (no content, no text field) the
fallback-generation extraction returns the stringified first choice
`{'message': {}}`, not the stringified whole response body. -/
theorem gateway_extraction_counterexample :
    extractFallback (mkPayload []) = .ok "\x7b\x27message\x27: \x7b\x7d\x7d" ∧
    stripStr (pyStr (mkPayload [])) =
      "\x7b\x27choices\x27: [\x7b\x27message\x27: \x7b\x7d\x7d]\x7d" ∧
    ¬ "\x7b\x27message\x27: \x7b\x7d\x7d" = stripStr (pyStr (mkPayload [])) :=
  ⟨rfl, rfl, by decide⟩

/-- Payload sanity for a transport: every 200-decoded body makes the given
extraction succeed (no truthy non-string `content`, etc.). -/
def EnvSafeFor (extract : PyVal → Except PyErr String) (env : GatewayEnv) : Prop :=
  ∀ i data, env.primary i = .resp 200 (.ok data) → ∃ t, extract data = .ok t

/-- Under payload sanity a gateway loop always returns a string (never an
uncaught exception). -/
theorem gatewayLoop_total (extract : PyVal → Except PyErr String)
    (altText : PyVal → Option String) (env : GatewayEnv)
    (finalText : String) (hsafe : EnvSafeFor extract env) :
    ∀ fuel attempt calls sleeps,
      ∃ s, (gatewayLoop extract altText env finalText attempt fuel calls sleeps).1 = .ok s := by
  intro fuel
  induction fuel with
  | zero =>
    intro attempt calls sleeps
    exact ⟨finalText, by simp [gatewayLoop]⟩
  | succ fuel ih =>
    intro attempt calls sleeps
    simp only [gatewayLoop]
    cases hp : env.primary attempt with
    | netErr =>
      by_cases hta : (attempt == 0 && env.basesDiffer) = true
      · simp only [exceptStep, hta, if_true]
        cases halt : altOutcome altText env with
        | some t => exact ⟨t, by simp⟩
        | none =>
          by_cases ha2 : (attempt == 2) = true
          · exact ⟨finalText, by simp [ha2]⟩
          · simp only [Bool.not_eq_true] at ha2
            simp only [ha2, Bool.false_eq_true, if_false]
            exact ih (attempt + 1) _ _
      · simp only [Bool.not_eq_true] at hta
        simp only [exceptStep, hta, Bool.false_eq_true, if_false]
        by_cases ha2 : (attempt == 2) = true
        · exact ⟨finalText, by simp [ha2]⟩
        · simp only [Bool.not_eq_true] at ha2
          simp only [ha2, Bool.false_eq_true, if_false]
          exact ih (attempt + 1) _ _
    | resp status body =>
      by_cases h200 : (status == 200) = true
      · simp only [h200, if_true]
        cases body with
        | ok data =>
          have hs : status = 200 := by simpa using h200
          obtain ⟨t, ht⟩ := hsafe attempt data (by rw [hp, hs])
          exact ⟨t, by simp [ht]⟩
        | error u =>
          by_cases hta : (attempt == 0 && env.basesDiffer) = true
          · simp only [exceptStep, hta, if_true]
            cases halt : altOutcome altText env with
            | some t => exact ⟨t, by simp⟩
            | none =>
              by_cases ha2 : (attempt == 2) = true
              · exact ⟨finalText, by simp [ha2]⟩
              · simp only [Bool.not_eq_true] at ha2
                simp only [ha2, Bool.false_eq_true, if_false]
                exact ih (attempt + 1) _ _
          · simp only [Bool.not_eq_true] at hta
            simp only [exceptStep, hta, Bool.false_eq_true, if_false]
            by_cases ha2 : (attempt == 2) = true
            · exact ⟨finalText, by simp [ha2]⟩
            · simp only [Bool.not_eq_true] at ha2
              simp only [ha2, Bool.false_eq_true, if_false]
              exact ih (attempt + 1) _ _
      · simp only [Bool.not_eq_true] at h200
        simp only [h200, Bool.false_eq_true, if_false]
        by_cases hr : (status == 429 || status == 503) = true
        · simp only [hr, if_true]
          by_cases ha2 : (attempt == 2) = true
          · exact ⟨finalText, by simp [ha2]⟩
          · simp only [Bool.not_eq_true] at ha2
            simp only [ha2, Bool.false_eq_true, if_false]
            exact ih (attempt + 1) _ _
        · simp only [Bool.not_eq_true] at hr
          exact ⟨finalText, by simp [hr]⟩

/-- C6 (amended): for every query and every remote-provider behavior whose
200-payloads the extraction logic can turn into strings (standard payload
shapes; arbitrary non-200 statuses, network failures and undecodable bodies
are always fine), the resolver returns a readable string and no provider
failure escapes as an exception; in the worst case — no match and no usable
LLM — the user receives the static referral message with the human-support
contact details.  (Without the payload-sanity condition this fails: see the
counterexample, where a 200 body with a numeric `content` raises an uncaught
`AttributeError`.) -/
theorem resolver_total (P : BotParams) (q : String)
    (h1 : EnvSafeFor extractRefine P.refineEnv)
    (h2 : EnvSafeFor extractFallback P.fallbackEnv) :
    (∃ s, generateBotReply P q = .ok s) ∧
    (P.useLLM = false → (P.faqSearch (stripStr q)).1 = Option.none →
      ¬ stripStr q = "" → isGreeting (stripStr q) = false →
      generateBotReply P q = .ok referralMsg) := by
  constructor
  · by_cases hq : stripStr q = ""
    · exact ⟨promptMsg, by simp [generateBotReply, hq]⟩
    · by_cases hg : isGreeting (stripStr q) = true
      · exact ⟨greetMsg, by simp [generateBotReply, hq, hg]⟩
      · have hg' : isGreeting (stripStr q) = false := by
          simpa using hg
        rcases hsearch : P.faqSearch (stripStr q) with ⟨item, score⟩
        cases item with
        | none =>
          by_cases hu : P.useLLM
          · cases hc : P.client with
            | some c =>
              by_cases hoa : P.provider = "OpenAI"
              · exact ⟨llmFallbackAnswer c (stripStr q),
                  by simp [generateBotReply, hq, hg', hsearch, hu, hc, hoa]⟩
              · by_cases hor : P.provider = "OpenRouter" ∧ P.orReady
                · obtain ⟨t, ht⟩ := gatewayLoop_total extractFallback fallbackAltText P.fallbackEnv
                    orFallbackReferral h2 3 0 0 []
                  exact ⟨t,
                    by simp [generateBotReply, hq, hg', hsearch, hu, hc, hoa, hor,
                      fallbackWithOpenrouter] at ht ⊢; exact ht⟩
                · exact ⟨referralMsg,
                    by simp [generateBotReply, hq, hg', hsearch, hu, hc, hoa, hor]⟩
            | none =>
              by_cases hor : P.provider = "OpenRouter" ∧ P.orReady
              · obtain ⟨t, ht⟩ := gatewayLoop_total extractFallback fallbackAltText P.fallbackEnv
                  orFallbackReferral h2 3 0 0 []
                exact ⟨t,
                  by simp [generateBotReply, hq, hg', hsearch, hu, hc, hor,
                    fallbackWithOpenrouter] at ht ⊢; exact ht⟩
              · exact ⟨referralMsg,
                  by simp [generateBotReply, hq, hg', hsearch, hu, hc, hor]⟩
          · exact ⟨referralMsg, by simp [generateBotReply, hq, hg', hsearch, hu]⟩
        | some faq =>
          by_cases hu : P.useLLM
          · by_cases hoa : P.provider = "OpenAI"
            · cases hc : P.client with
              | none => exact ⟨fmtBlock faq.question faq.answer score,
                  by simp [generateBotReply, hq, hg', hsearch, hu, hoa, hc]⟩
              | some c => exact
                  ⟨fmtBlock faq.question (refineWithLLM c (stripStr q) faq.answer) score,
                   by simp [generateBotReply, hq, hg', hsearch, hu, hoa, hc]⟩
            · by_cases horp : P.provider = "OpenRouter"
              · by_cases hor : P.orReady
                · obtain ⟨t, ht⟩ := gatewayLoop_total extractRefine refineAltText P.refineEnv
                    (faq.answer ++ refineUnavailableNotice) h1 3 0 0 []
                  refine ⟨fmtBlock faq.question t score, ?_⟩
                  have ht' : (refineWithOpenrouter P.refineEnv faq.answer).1 = .ok t := ht
                  simp [generateBotReply, hq, hg', hsearch, hu, hoa, horp, hor, ht']
                · exact ⟨fmtBlock faq.question faq.answer score,
                    by simp [generateBotReply, hq, hg', hsearch, hu, hoa, horp, hor]⟩
              · exact ⟨fmtBlock faq.question faq.answer score,
                  by simp [generateBotReply, hq, hg', hsearch, hu, hoa, horp]⟩
          · exact ⟨fmtBlock faq.question faq.answer score,
              by simp [generateBotReply, hq, hg', hsearch, hu]⟩
  · intro hu hnone hq hg
    rcases hsearch : P.faqSearch (stripStr q) with ⟨item, score⟩
    rw [hsearch] at hnone
    cases item with
    | none => simp [generateBotReply, hq, hg, hsearch, hu]
    | some faq => simp at hnone

/-- Witness for the amended C6 on an all-failing transport (the sanity
hypotheses hold vacuously: no request is ever answered 200). -/
theorem resolver_total_witness :
    EnvSafeFor extractRefine trivParams.refineEnv ∧
    EnvSafeFor extractFallback trivParams.fallbackEnv ∧
    (∃ s, generateBotReply trivParams "when does my order arrive" = .ok s) :=
  ⟨fun _ _ h => HttpResult.noConfusion h,
   fun _ _ h => HttpResult.noConfusion h,
   (resolver_total trivParams "when does my order arrive"
      (fun _ _ h => HttpResult.noConfusion h)
      (fun _ _ h => HttpResult.noConfusion h)).1⟩

/-- A 200 payload whose `content` is a (truthy) number, not a string. -/
def numericContentPayload : PyVal :=
  .dict [("choices", .list [.dict [("message", .dict [("content", .int 42)])]])]

/-- A transport answering every request 200 with `numericContentPayload`. -/
def numericContentEnv : GatewayEnv :=
  { primary := fun _ => .resp 200 (.ok numericContentPayload), alt := .netErr
    jitter := fun _ => 0, basesDiffer := false }

/-- A resolver configuration that reaches the OpenRouter refinement with
`numericContentEnv`. -/
noncomputable def numericContentParams : BotParams :=
  { faqSearch := fun _ => (some faqTrack, 1), client := Option.none
    useLLM := true, provider := "OpenRouter", orReady := true
    refineEnv := numericContentEnv, fallbackEnv := allNetErrEnv }

/-- Counterexample to C6 as stated: a 200 response whose first choice has a
numeric `content` makes `text.strip()` raise an `AttributeError` that
propagates out of `generate_bot_reply` — the resolver does not return a
string for every payload shape. -/
theorem resolver_total_counterexample :
    numericContentEnv.primary 0 = .resp 200 (.ok numericContentPayload) ∧
    generateBotReply numericContentParams "track my order" = .error .attributeError :=
  ⟨rfl, rfl⟩
